import Mathlib

/-!
Verification of the GPIO pass-through program `gpio_behavior.c`
(repository baobuibk/SpaceLinn_ISS_1U_OBC_Linux, .app_src/00_AliveBehavior).

The C program is a single `main` function:

    chip = gpiod_chip_open(GPIO_CHIP);
    if (!chip) { perror("Open chip failed"); return 1; }
    in_line  = gpiod_chip_get_line(chip, INPUT_LINE);
    out_line = gpiod_chip_get_line(chip, OUTPUT_LINE);
    gpiod_line_request_input(in_line, "gpio_in");
    gpiod_line_request_output(out_line, "gpio_out", 0);
    while (1) {
        int val = gpiod_line_get_value(in_line);
        gpiod_line_set_value(out_line, val);
        usleep(10000);
    }
    gpiod_chip_close(chip);
    return 0;

We embed it shallowly as a trace semantics.  The external GPIO provider
(libgpiod plus the kernel) is modelled by an environment `Env` recording
whether the chip open succeeds, whether the line-acquisition and
line-request calls of startup steps 2-4 would succeed (the program never
looks at these, which is exactly what claim C5 is about), and the integer
value the provider returns from `gpiod_line_get_value` on each loop
iteration (an arbitrary `Int`, since the C return type is `int` and the
call can return an error sentinel such as -1).

Running `main` under an environment, with a fuel bound on the number of
`while (1)` iterations, yields the list of provider/IO events the program
performs, in order, together with an exit code: `some 1` when the open
fails (the `return 1` branch), and `none` when the program is still inside
the infinite loop after `fuel` iterations -- `return 0` and
`gpiod_chip_close` are never reached, so no trace ever carries exit
code 0 or a close event.
-/

/-- `#define GPIO_CHIP "/dev/gpiochip0"` -/
def GPIO_CHIP : String := "/dev/gpiochip0"

/-- `#define INPUT_LINE 10` -/
def INPUT_LINE : Nat := 10

/-- `#define OUTPUT_LINE 24` -/
def OUTPUT_LINE : Nat := 24

/-- One observable action of the program: a call into the GPIO provider,
or the diagnostic print on the failure path. -/
inductive Event : Type
  | openChip (path : String)
  | perror (msg : String)
  | getLine (offset : Nat)
  | requestInput (offset : Nat) (consumer : String)
  | requestOutput (offset : Nat) (consumer : String) (initVal : Int)
  | getValue (offset : Nat)
  | setValue (offset : Nat) (val : Int)
  | sleep (usec : Nat)
  | closeChip
  deriving DecidableEq, Repr

/-- The external GPIO provider, as an oracle.  `openSucceeds` says whether
`gpiod_chip_open` returns a non-null chip; `getLineOk` and `requestOk`
record whether the get-line and request calls at a given offset would
succeed (the program ignores their results); `inputAt i` is the `int`
that `gpiod_line_get_value` returns on loop iteration `i`. -/
structure Env : Type where
  openSucceeds : Bool
  getLineOk : Nat → Bool
  requestOk : Nat → Bool
  inputAt : Nat → Int

/-- The four startup calls made after a successful chip open, in program
order (lines 19-23 of the source). -/
def startupEvents : List Event :=
  [Event.getLine INPUT_LINE, Event.getLine OUTPUT_LINE,
   Event.requestInput INPUT_LINE "gpio_in",
   Event.requestOutput OUTPUT_LINE "gpio_out" 0]

/-- The three calls of one body execution of `while (1)` (lines 26-28):
read the input line, write that value to the output line, sleep 10000
microseconds. -/
def iterEvents (env : Env) (i : Nat) : List Event :=
  [Event.getValue INPUT_LINE,
   Event.setValue OUTPUT_LINE (env.inputAt i),
   Event.sleep 10000]

/-- The events of the first `n` iterations of the loop, in order. -/
def loopEvents (env : Env) (n : Nat) : List Event :=
  (List.range n).flatMap (iterEvents env)

/-- The trace of `main` under environment `env`, observed after `fuel`
loop iterations, together with the exit status: `some 1` on the failed
open (line 16 `return 1`), `none` while the infinite loop is running.
`return 0` at line 32 is unreachable, so `some 0` never occurs. -/
def mainTrace (env : Env) (fuel : Nat) : List Event × Option Nat :=
  if env.openSucceeds then
    (Event.openChip GPIO_CHIP :: (startupEvents ++ loopEvents env fuel), none)
  else
    ([Event.openChip GPIO_CHIP, Event.perror "Open chip failed"], some 1)

/-- Classifier: get-line events. -/
def isGetLine : Event → Bool
  | Event.getLine _ => true
  | _ => false

/-- Classifier: request-as-input events. -/
def isRequestInput : Event → Bool
  | Event.requestInput _ _ => true
  | _ => false

/-- Classifier: request-as-output events. -/
def isRequestOutput : Event → Bool
  | Event.requestOutput _ _ _ => true
  | _ => false

/-- Classifier: read-line-value events. -/
def isGetValue : Event → Bool
  | Event.getValue _ => true
  | _ => false

/-- Classifier: write-line-value events. -/
def isSetValue : Event → Bool
  | Event.setValue _ _ => true
  | _ => false

/-- Classifier: chip-open events. -/
def isOpenChip : Event → Bool
  | Event.openChip _ => true
  | _ => false

/-- Classifier: chip-close events. -/
def isCloseChip : Event → Bool
  | Event.closeChip => true
  | _ => false

/-- Classifier: any operation on a line handle (get-line, request, read
or write). -/
def isLineOp (e : Event) : Bool :=
  isGetLine e || isRequestInput e || isRequestOutput e ||
  isGetValue e || isSetValue e

/-- How many events of a trace satisfy a classifier. -/
def countEvent (p : Event → Bool) (tr : List Event) : Nat :=
  (tr.filter p).length

/-- The value carried by a write event, `none` for every other event. -/
def setValueVal : Event → Option Int
  | Event.setValue _ v => some v
  | _ => none

/-- The electrical state of the output line as driven by a trace: `none`
before the line is requested, then the initial value of the request, then
the value of the latest write.  Only events addressing `OUTPUT_LINE`
matter. -/
def outputState (tr : List Event) : Option Int :=
  tr.foldl
    (fun v e =>
      match e with
      | Event.requestOutput o _ init => if o == OUTPUT_LINE then some init else v
      | Event.setValue o val => if o == OUTPUT_LINE then some val else v
      | _ => v) none

/-- Does the trace request some offset both as input and as output? -/
def requestsSameLineBoth (tr : List Event) : Bool :=
  tr.any (fun e =>
    match e with
    | Event.requestInput o _ =>
        tr.any (fun f =>
          match f with
          | Event.requestOutput o2 _ _ => o == o2
          | _ => false)
    | _ => false)

/-! ### Structural lemmas about the loop trace -/

lemma loopEvents_zero (env : Env) : loopEvents env 0 = [] := rfl

lemma loopEvents_succ (env : Env) (n : Nat) :
    loopEvents env (n + 1) = loopEvents env n ++ iterEvents env n := by
  simp [loopEvents, List.range_succ]

lemma length_loopEvents (env : Env) (n : Nat) :
    (loopEvents env n).length = 3 * n := by
  induction n with
  | zero => rfl
  | succ k ih =>
      rw [loopEvents_succ, List.length_append, ih]
      simp [iterEvents]
      ring

lemma filter_iterEvents_eq_nil (env : Env) (i : Nat) (p : Event → Bool)
    (h1 : p (Event.getValue INPUT_LINE) = false)
    (h2 : p (Event.setValue OUTPUT_LINE (env.inputAt i)) = false)
    (h3 : p (Event.sleep 10000) = false) :
    (iterEvents env i).filter p = [] := by
  simp [iterEvents, List.filter, h1, h2, h3]

lemma filter_loopEvents_eq_nil (env : Env) (n : Nat) (p : Event → Bool)
    (h1 : ∀ o, p (Event.getValue o) = false)
    (h2 : ∀ o v, p (Event.setValue o v) = false)
    (h3 : ∀ u, p (Event.sleep u) = false) :
    (loopEvents env n).filter p = [] := by
  induction n with
  | zero => rfl
  | succ k ih =>
      rw [loopEvents_succ, List.filter_append, ih,
        filter_iterEvents_eq_nil env k p (h1 _) (h2 _ _) (h3 _)]
      rfl

lemma filter_setValue_loopEvents (env : Env) (n : Nat) :
    (loopEvents env n).filter isSetValue
      = (List.range n).map (fun i => Event.setValue OUTPUT_LINE (env.inputAt i)) := by
  induction n with
  | zero => rfl
  | succ k ih =>
      rw [loopEvents_succ, List.filter_append, ih, List.range_succ, List.map_append]
      simp [iterEvents, List.filter, isSetValue]

lemma filterMap_setValueVal_loopEvents (env : Env) (n : Nat) :
    (loopEvents env n).filterMap setValueVal
      = (List.range n).map env.inputAt := by
  induction n with
  | zero => rfl
  | succ k ih =>
      rw [loopEvents_succ, List.filterMap_append, ih, List.range_succ, List.map_append]
      simp [iterEvents, List.filterMap, setValueVal]

lemma countEvent_setValue_loopEvents (env : Env) (n : Nat) :
    countEvent isSetValue (loopEvents env n) = n := by
  rw [countEvent, filter_setValue_loopEvents]
  simp

lemma filter_getValue_loopEvents (env : Env) (n : Nat) :
    (loopEvents env n).filter isGetValue
      = (List.range n).map (fun _ => Event.getValue INPUT_LINE) := by
  induction n with
  | zero => rfl
  | succ k ih =>
      rw [loopEvents_succ, List.filter_append, ih, List.range_succ, List.map_append]
      simp [iterEvents, List.filter, isGetValue]

lemma loopEvents_congr (e1 e2 : Env) (h : e1.inputAt = e2.inputAt) (n : Nat) :
    loopEvents e1 n = loopEvents e2 n := by
  have hfun : iterEvents e1 = iterEvents e2 := by
    funext i
    simp [iterEvents, h]
  simp [loopEvents, hfun]

/-! ### Filter characterizations of the whole trace -/

lemma filter_openChip_mainTrace (env : Env) (fuel : Nat) :
    (mainTrace env fuel).1.filter isOpenChip = [Event.openChip GPIO_CHIP] := by
  have hl := filter_loopEvents_eq_nil env fuel isOpenChip
    (fun _ => rfl) (fun _ _ => rfl) (fun _ => rfl)
  cases h : env.openSucceeds <;>
    simp [mainTrace, h, startupEvents, List.filter_append, hl, isOpenChip]

lemma filter_getLine_mainTrace (env : Env) (fuel : Nat) :
    (mainTrace env fuel).1.filter isGetLine
      = if env.openSucceeds then
          [Event.getLine INPUT_LINE, Event.getLine OUTPUT_LINE] else [] := by
  have hl := filter_loopEvents_eq_nil env fuel isGetLine
    (fun _ => rfl) (fun _ _ => rfl) (fun _ => rfl)
  cases h : env.openSucceeds <;>
    simp [mainTrace, h, startupEvents, List.filter_append, hl, isGetLine]

lemma filter_requestInput_mainTrace (env : Env) (fuel : Nat) :
    (mainTrace env fuel).1.filter isRequestInput
      = if env.openSucceeds then
          [Event.requestInput INPUT_LINE "gpio_in"] else [] := by
  have hl := filter_loopEvents_eq_nil env fuel isRequestInput
    (fun _ => rfl) (fun _ _ => rfl) (fun _ => rfl)
  cases h : env.openSucceeds <;>
    simp [mainTrace, h, startupEvents, List.filter_append, hl, isRequestInput]

lemma filter_requestOutput_mainTrace (env : Env) (fuel : Nat) :
    (mainTrace env fuel).1.filter isRequestOutput
      = if env.openSucceeds then
          [Event.requestOutput OUTPUT_LINE "gpio_out" 0] else [] := by
  have hl := filter_loopEvents_eq_nil env fuel isRequestOutput
    (fun _ => rfl) (fun _ _ => rfl) (fun _ => rfl)
  cases h : env.openSucceeds <;>
    simp [mainTrace, h, startupEvents, List.filter_append, hl, isRequestOutput]

lemma filter_closeChip_mainTrace (env : Env) (fuel : Nat) :
    (mainTrace env fuel).1.filter isCloseChip = [] := by
  have hl := filter_loopEvents_eq_nil env fuel isCloseChip
    (fun _ => rfl) (fun _ _ => rfl) (fun _ => rfl)
  cases h : env.openSucceeds <;>
    simp [mainTrace, h, startupEvents, List.filter_append, hl, isCloseChip]

lemma filter_setValue_mainTrace (env : Env) (fuel : Nat)
    (h : env.openSucceeds = true) :
    (mainTrace env fuel).1.filter isSetValue
      = (List.range fuel).map (fun i => Event.setValue OUTPUT_LINE (env.inputAt i)) := by
  simp [mainTrace, h, startupEvents, List.filter_append,
    filter_setValue_loopEvents, isSetValue]

lemma filter_getValue_mainTrace (env : Env) (fuel : Nat)
    (h : env.openSucceeds = true) :
    (mainTrace env fuel).1.filter isGetValue
      = (List.range fuel).map (fun _ => Event.getValue INPUT_LINE) := by
  simp [mainTrace, h, startupEvents, List.filter_append,
    filter_getValue_loopEvents, isGetValue]

lemma filterMap_setValueVal_mainTrace (env : Env) (fuel : Nat)
    (h : env.openSucceeds = true) :
    (mainTrace env fuel).1.filterMap setValueVal
      = (List.range fuel).map env.inputAt := by
  simp [mainTrace, h, startupEvents, List.filterMap_append,
    filterMap_setValueVal_loopEvents, setValueVal]

/-! ### Output-state and slicing lemmas -/

lemma outputState_append_iter (tr : List Event) (env : Env) (i : Nat) :
    outputState (tr ++ iterEvents env i) = some (env.inputAt i) := by
  rw [outputState, List.foldl_append]
  rfl

lemma countEvent_take_le (p : Event → Bool) (tr : List Event) (k : Nat) :
    countEvent p (tr.take k) ≤ countEvent p tr :=
  List.Sublist.length_le (List.Sublist.filter p (List.take_sublist k tr))

lemma loopEvents_slice (env : Env) (n i : Nat) (hi : i < n) :
    ((loopEvents env n).drop (3 * i)).take 3 = iterEvents env i := by
  induction n with
  | zero => exact absurd hi (Nat.not_lt_zero i)
  | succ k ih =>
      rw [loopEvents_succ]
      rcases Nat.lt_succ_iff_lt_or_eq.mp hi with h | h
      · rw [List.drop_append_eq_append_drop, length_loopEvents]
        have h3 : 3 * i - 3 * k = 0 := by omega
        rw [h3, List.drop_zero, List.take_append_of_le_length, ih h]
        rw [List.length_drop, length_loopEvents]
        omega
      · subst h
        rw [List.drop_append_eq_append_drop, length_loopEvents, Nat.sub_self,
          List.drop_zero]
        have hd : (loopEvents env i).drop (3 * i) = [] := by
          apply List.drop_eq_nil_of_le
          rw [length_loopEvents]
        rw [hd, List.nil_append]
        rfl

lemma requestsSameLineBoth_eq_false (tr : List Event)
    (hin : ∀ o c, Event.requestInput o c ∈ tr → o = INPUT_LINE)
    (hout : ∀ o c v, Event.requestOutput o c v ∈ tr → o = OUTPUT_LINE) :
    requestsSameLineBoth tr = false := by
  rw [requestsSameLineBoth, List.any_eq_false]
  intro e he
  simp only [Bool.not_eq_true]
  cases e with
  | requestInput o c =>
      show tr.any _ = false
      rw [List.any_eq_false]
      intro f hf
      simp only [Bool.not_eq_true]
      cases f with
      | requestOutput o2 c2 v2 =>
          have h1 := hin o c he
          have h2 := hout o2 c2 v2 hf
          subst h1
          subst h2
          rfl
      | openChip p => rfl
      | perror m => rfl
      | getLine o3 => rfl
      | requestInput o3 c3 => rfl
      | getValue o3 => rfl
      | setValue o3 v3 => rfl
      | sleep u => rfl
      | closeChip => rfl
  | openChip p => rfl
  | perror m => rfl
  | getLine o3 => rfl
  | requestOutput o3 c3 v3 => rfl
  | getValue o3 => rfl
  | setValue o3 v3 => rfl
  | sleep u => rfl
  | closeChip => rfl

/-! ### The claims -/

/-- C1: on each loop iteration the value written to the output line is
exactly the value read from the input line in that same iteration (the
i-th write of the trace carries `env.inputAt i`), and after each
iteration the output line's state is the most recently read input
value. -/
theorem output_mirrors_latest_input (env : Env) (fuel i : Nat)
    (hopen : env.openSucceeds = true) (hi : i < fuel) :
    ((mainTrace env fuel).1.filterMap setValueVal)[i]? = some (env.inputAt i)
    ∧ outputState (mainTrace env (i + 1)).1 = some (env.inputAt i) := by
  constructor
  · rw [filterMap_setValueVal_mainTrace env fuel hopen]
    rw [List.getElem?_map, List.getElem?_range hi]
    rfl
  · have h1 : (mainTrace env (i + 1)).1
        = (Event.openChip GPIO_CHIP :: (startupEvents ++ loopEvents env i))
            ++ iterEvents env i := by
      simp [mainTrace, hopen, loopEvents_succ]
    rw [h1, outputState_append_iter]

/-- C1 witness: with input sequence i ↦ i + 5, after 4 iterations the
third write was 7 and the output state after iteration 2 is 7. -/
theorem output_mirrors_latest_input_witness :
    ((mainTrace ⟨true, fun _ => true, fun _ => true, fun i => (i : Int) + 5⟩ 4).1.filterMap
        setValueVal)[2]? = some 7
    ∧ outputState
        (mainTrace ⟨true, fun _ => true, fun _ => true, fun i => (i : Int) + 5⟩ 3).1
      = some 7 :=
  output_mirrors_latest_input
    ⟨true, fun _ => true, fun _ => true, fun i => (i : Int) + 5⟩ 4 2 rfl (by decide)

/-- C2: when the chip open fails, the program prints the diagnostic to
standard error, exits with status 1, and the trace contains no line
operation at all (no get-line, request, read or write). -/
theorem open_failure_exits_one (env : Env) (fuel : Nat)
    (h : env.openSucceeds = false) :
    (mainTrace env fuel).2 = some 1
    ∧ (mainTrace env fuel).1
        = [Event.openChip GPIO_CHIP, Event.perror "Open chip failed"]
    ∧ countEvent isLineOp (mainTrace env fuel).1 = 0 := by
  have hne : ¬ env.openSucceeds = true := by simp [h]
  rw [mainTrace, if_neg hne]
  exact ⟨rfl, rfl, rfl⟩

/-- C2 witness at a concrete failing environment. -/
theorem open_failure_exits_one_witness :
    (mainTrace ⟨false, fun _ => true, fun _ => true, fun _ => 0⟩ 5).2 = some 1
    ∧ (mainTrace ⟨false, fun _ => true, fun _ => true, fun _ => 0⟩ 5).1
        = [Event.openChip GPIO_CHIP, Event.perror "Open chip failed"]
    ∧ countEvent isLineOp
        (mainTrace ⟨false, fun _ => true, fun _ => true, fun _ => 0⟩ 5).1 = 0 :=
  open_failure_exits_one ⟨false, fun _ => true, fun _ => true, fun _ => 0⟩ 5 rfl

/-- C3: once the open succeeds the loop never terminates on its own:
after any number n of iterations the exit status is still `none` (no
`return` executed), exactly n output writes have happened, and no
chip-close event ever appears in the trace. -/
theorem loop_never_exits (env : Env) (n : Nat) (h : env.openSucceeds = true) :
    (mainTrace env n).2 = none
    ∧ countEvent isSetValue (mainTrace env n).1 = n
    ∧ countEvent isCloseChip (mainTrace env n).1 = 0 := by
  refine ⟨by simp [mainTrace, h], ?_, ?_⟩
  · rw [countEvent, filter_setValue_mainTrace env n h]
    simp
  · rw [countEvent, filter_closeChip_mainTrace]
    rfl

/-- C3 witness: 6 iterations with constant input 1 give no exit, 6
writes and no close. -/
theorem loop_never_exits_witness :
    (mainTrace ⟨true, fun _ => true, fun _ => true, fun _ => 1⟩ 6).2 = none
    ∧ countEvent isSetValue
        (mainTrace ⟨true, fun _ => true, fun _ => true, fun _ => 1⟩ 6).1 = 6
    ∧ countEvent isCloseChip
        (mainTrace ⟨true, fun _ => true, fun _ => true, fun _ => 1⟩ 6).1 = 0 :=
  loop_never_exits ⟨true, fun _ => true, fun _ => true, fun _ => 1⟩ 6 rfl

/-- C4: the output line is requested in write mode with initial value 0,
so before the first loop iteration the output line's state is 0. -/
theorem output_initialized_low (env : Env) (fuel : Nat)
    (h : env.openSucceeds = true) :
    Event.requestOutput OUTPUT_LINE "gpio_out" 0 ∈ (mainTrace env fuel).1
    ∧ outputState (mainTrace env 0).1 = some 0 := by
  constructor
  · simp [mainTrace, h, startupEvents]
  · simp only [mainTrace, h, if_true]
    rfl

/-- C4 witness at a concrete environment. -/
theorem output_initialized_low_witness :
    Event.requestOutput OUTPUT_LINE "gpio_out" 0
      ∈ (mainTrace ⟨true, fun _ => true, fun _ => true, fun _ => 1⟩ 2).1
    ∧ outputState (mainTrace ⟨true, fun _ => true, fun _ => true, fun _ => 1⟩ 0).1
      = some 0 :=
  output_initialized_low ⟨true, fun _ => true, fun _ => true, fun _ => 1⟩ 2 rfl

/-- C5: after a successful open, the results of the two get-line calls
and the two request calls are never inspected: the trace is identical for
any two environments that agree on the open result and the input values,
however the get-line and request operations would succeed or fail, and
the program always proceeds to the loop (one read per iteration). -/
theorem startup_results_not_inspected (e1 e2 : Env) (fuel : Nat)
    (h1 : e1.openSucceeds = true) (h2 : e2.openSucceeds = true)
    (hin : e1.inputAt = e2.inputAt) :
    mainTrace e1 fuel = mainTrace e2 fuel
    ∧ countEvent isGetValue (mainTrace e1 fuel).1 = fuel := by
  constructor
  · simp only [mainTrace, h1, h2, if_true, loopEvents_congr e1 e2 hin fuel]
  · rw [countEvent, filter_getValue_mainTrace e1 fuel h1]
    simp

/-- C5 witness: an environment where steps 2-4 all succeed and one where
they all fail give the very same trace, and the loop runs anyway. -/
theorem startup_results_not_inspected_witness :
    mainTrace ⟨true, fun _ => true, fun _ => true, fun _ => 1⟩ 3
      = mainTrace ⟨true, fun _ => false, fun _ => false, fun _ => 1⟩ 3
    ∧ countEvent isGetValue
        (mainTrace ⟨true, fun _ => true, fun _ => true, fun _ => 1⟩ 3).1 = 3 :=
  startup_results_not_inspected
    ⟨true, fun _ => true, fun _ => true, fun _ => 1⟩
    ⟨true, fun _ => false, fun _ => false, fun _ => 1⟩ 3 rfl rfl rfl

/-- C6: each loop iteration is exactly the three events read-input,
write-output, sleep 10 ms, in that order, and the whole trace consists of
the 5 startup events followed by 3 events per iteration -- nothing
else. -/
theorem iteration_shape (env : Env) (fuel i : Nat)
    (h : env.openSucceeds = true) (hi : i < fuel) :
    (((mainTrace env fuel).1.drop (5 + 3 * i)).take 3)
      = [Event.getValue INPUT_LINE, Event.setValue OUTPUT_LINE (env.inputAt i),
         Event.sleep 10000]
    ∧ (mainTrace env fuel).1.length = 5 + 3 * fuel := by
  have htr : (mainTrace env fuel).1
      = (Event.openChip GPIO_CHIP :: startupEvents) ++ loopEvents env fuel := by
    simp [mainTrace, h]
  have hlen : (Event.openChip GPIO_CHIP :: startupEvents).length = 5 := rfl
  constructor
  · rw [htr, List.drop_append_eq_append_drop, hlen]
    have hd : (Event.openChip GPIO_CHIP :: startupEvents).drop (5 + 3 * i) = [] := by
      apply List.drop_eq_nil_of_le
      rw [hlen]
      omega
    have h5 : 5 + 3 * i - 5 = 3 * i := by omega
    rw [hd, List.nil_append, h5]
    exact loopEvents_slice env fuel i hi
  · rw [htr, List.length_append, length_loopEvents, hlen]

/-- C6 witness: with input sequence i ↦ i, iteration 1 of a 3-iteration
run is read, write 1, sleep, and the trace has 5 + 9 events. -/
theorem iteration_shape_witness :
    (((mainTrace ⟨true, fun _ => true, fun _ => true, fun i => (i : Int)⟩ 3).1.drop
        (5 + 3 * 1)).take 3)
      = [Event.getValue INPUT_LINE, Event.setValue OUTPUT_LINE 1, Event.sleep 10000]
    ∧ (mainTrace ⟨true, fun _ => true, fun _ => true, fun i => (i : Int)⟩ 3).1.length
      = 5 + 3 * 3 :=
  iteration_shape ⟨true, fun _ => true, fun _ => true, fun i => (i : Int)⟩ 3 1 rfl
    (by decide)

/-- C7: the device path and the two offsets are compiled-in constants:
every trace, for every environment, starts by opening exactly
"/dev/gpiochip0", and the only get-line and request events ever emitted
address offsets 10 (input) and 24 (output). -/
theorem fixed_configuration (env : Env) (fuel : Nat) :
    (mainTrace env fuel).1.head? = some (Event.openChip GPIO_CHIP)
    ∧ GPIO_CHIP = "/dev/gpiochip0" ∧ INPUT_LINE = 10 ∧ OUTPUT_LINE = 24
    ∧ (mainTrace env fuel).1.filter isGetLine
        = (if env.openSucceeds then
            [Event.getLine INPUT_LINE, Event.getLine OUTPUT_LINE] else [])
    ∧ (mainTrace env fuel).1.filter isRequestInput
        = (if env.openSucceeds then
            [Event.requestInput INPUT_LINE "gpio_in"] else [])
    ∧ (mainTrace env fuel).1.filter isRequestOutput
        = (if env.openSucceeds then
            [Event.requestOutput OUTPUT_LINE "gpio_out" 0] else []) := by
  refine ⟨?_, rfl, rfl, rfl, filter_getLine_mainTrace env fuel,
    filter_requestInput_mainTrace env fuel, filter_requestOutput_mainTrace env fuel⟩
  cases h : env.openSucceeds <;> simp [mainTrace, h]

/-- C8: in every reachable state (every prefix of every trace) at most
one chip has been opened, at most one line has been requested as input
and at most one as output, so both handles come from the single chip. -/
theorem single_handles_invariant (env : Env) (fuel k : Nat) :
    countEvent isOpenChip ((mainTrace env fuel).1.take k) ≤ 1
    ∧ countEvent isRequestInput ((mainTrace env fuel).1.take k) ≤ 1
    ∧ countEvent isRequestOutput ((mainTrace env fuel).1.take k) ≤ 1 := by
  refine ⟨le_trans (countEvent_take_le _ _ _) ?_,
          le_trans (countEvent_take_le _ _ _) ?_,
          le_trans (countEvent_take_le _ _ _) ?_⟩
  · rw [countEvent, filter_openChip_mainTrace]
    simp
  · rw [countEvent, filter_requestInput_mainTrace]
    cases h : env.openSucceeds <;> simp [h]
  · rw [countEvent, filter_requestOutput_mainTrace]
    cases h : env.openSucceeds <;> simp [h]

/-- C9: the input offset 10 and the output offset 24 are distinct, and no
trace of the program ever requests the same offset both as input and as
output. -/
theorem distinct_lines (env : Env) (fuel : Nat) :
    (INPUT_LINE == OUTPUT_LINE) = false
    ∧ requestsSameLineBoth (mainTrace env fuel).1 = false := by
  refine ⟨rfl, requestsSameLineBoth_eq_false _ ?_ ?_⟩
  · intro o c hmem
    have hf : Event.requestInput o c ∈ (mainTrace env fuel).1.filter isRequestInput :=
      List.mem_filter.mpr ⟨hmem, rfl⟩
    rw [filter_requestInput_mainTrace] at hf
    cases h : env.openSucceeds <;> rw [h] at hf <;> simp at hf
    exact hf.1
  · intro o c v hmem
    have hf : Event.requestOutput o c v ∈ (mainTrace env fuel).1.filter isRequestOutput :=
      List.mem_filter.mpr ⟨hmem, rfl⟩
    rw [filter_requestOutput_mainTrace] at hf
    cases h : env.openSucceeds <;> rw [h] at hf <;> simp at hf
    exact hf.1

/-- C10: the read value is handed to the write unchanged, whatever it is:
the sequence of written values is literally the sequence of values the
provider returned, with no clamping, validation or error branch -- in
particular an error sentinel such as -1 is written back verbatim. -/
theorem unfiltered_write_values (env : Env) (fuel : Nat)
    (h : env.openSucceeds = true) :
    (mainTrace env fuel).1.filterMap setValueVal
      = (List.range fuel).map env.inputAt :=
  filterMap_setValueVal_mainTrace env fuel h

/-- C10 witness: when every read returns the error sentinel -1, the
program writes -1 on every iteration. -/
theorem unfiltered_write_values_witness :
    (mainTrace ⟨true, fun _ => true, fun _ => true, fun _ => (-1 : Int)⟩ 2).1.filterMap
        setValueVal = [-1, -1] := by
  have h := unfiltered_write_values
    ⟨true, fun _ => true, fun _ => true, fun _ => (-1 : Int)⟩ 2 rfl
  rw [h]
  rfl
